import Mathlib

/-!
Verification of the mediavault repository core: a shallow embedding of the
catalog index (src/mediavault/src/db/mod.rs), the object store
(src/mediavault/src/storage/mod.rs), the shared data types
(src/mediavault_common/src/types.rs) and the application facade
(src/mediavault/src/app.rs), together with theorems settling the frozen
claims about the specification.

Modelling conventions:
- Rust u32 values are Nat (wrapping multiplication is written with % 2^32
  where the source multiplies two u32), i64 is Int.
- chrono DateTime values are opaque ordered timestamps, modelled as Int.
- The SQLite database state is the pair of its two core tables, each a list
  of rows in rowid (insertion) order; SQL statements are translated to their
  relational semantics over those lists, including the documented SQLite
  behaviours the source relies on: INSERT OR REPLACE deletes every
  conflicting row (and, since the pool customizer sets PRAGMA foreign_keys
  = ON, fires ON DELETE CASCADE for those rows) before inserting, and a
  SELECT without ORDER BY scans in rowid order.
- Fallible operations return Except; operations that mutate the connection
  return the post-state together with an optional error, because the Rust
  code has no transactions and a failing statement leaves the earlier
  statements of the same call applied.
-/

/-- Rust str::starts_with, expressed over the character list (the same
predicate as String.startsWith, written so that it evaluates by kernel
reduction). -/
def strStarts (pre s : String) : Bool :=
  pre.data.isPrefixOf s.data

/-- Rust str::ends_with, expressed over the character list. -/
def strEnds (suf s : String) : Bool :=
  suf.data.isSuffixOf s.data

/-- mediavault_common::types::FileKind. -/
inductive FileKind where
  | Image
  | Video
  | Audio
  | Other
deriving DecidableEq, Repr

/-- FileKind::from_mime: the source matches a guard
`value if value.starts_with("image/")` and otherwise falls through to the
catch-all arm returning Other; no guard exists for video or audio. -/
def FileKind.from_mime (value : String) : FileKind :=
  if strStarts "image/" value then FileKind.Image else FileKind.Other

/-- FileKind::from_str. -/
def FileKind.from_str (value : String) : FileKind :=
  if value = "image" then FileKind.Image
  else if value = "video" then FileKind.Video
  else if value = "audio" then FileKind.Audio
  else FileKind.Other

/-- FileKind::to_str. -/
def FileKind.to_str : FileKind → String
  | FileKind.Image => "image"
  | FileKind.Video => "video"
  | FileKind.Audio => "audio"
  | FileKind.Other => "other"

/-- mediavault_common::types::MediaInfo (ImageInfo/VideoInfo/AudioInfo inlined). -/
inductive MediaInfo where
  | Image (width height : Nat)
  | Video (width height length : Nat)
  | Audio (length : Nat)
deriving DecidableEq, Repr

/-- MediaInfo::width. -/
def MediaInfo.width : MediaInfo → Option Nat
  | MediaInfo.Image w _ => some w
  | MediaInfo.Video w _ _ => some w
  | MediaInfo.Audio _ => none

/-- MediaInfo::height. -/
def MediaInfo.height : MediaInfo → Option Nat
  | MediaInfo.Image _ h => some h
  | MediaInfo.Video _ h _ => some h
  | MediaInfo.Audio _ => none

/-- MediaInfo::length. -/
def MediaInfo.length : MediaInfo → Option Nat
  | MediaInfo.Video _ _ l => some l
  | MediaInfo.Audio l => some l
  | MediaInfo.Image _ _ => none

/-- mediavault_common::types::FileInfo; DateTime is modelled as Int. -/
structure FileInfo where
  hash : String
  size : Int
  mime : Option String
  kind : FileKind
  media : Option MediaInfo
  created_at : Option Int
  updated_at : Option Int
deriving DecidableEq, Repr

/-- mediavault_common::types::FileSource; the free-form extra JSON payload is
modelled as its serialized text. -/
structure FileSource where
  url : String
  page_url : Option String
  title : Option String
  description : Option String
  tags : List String
  uploader : Option String
  created_at : Option Int
  extra : Option String
deriving DecidableEq, Repr

/-- mediavault_common::types::FileMeta. -/
structure FileMeta where
  title : Option String
  description : Option String
  tags : List String
  sources : List FileSource
  hash : Option String
deriving DecidableEq, Repr

/-- FileMeta::default(): every field takes its Default value. -/
def FileMeta.default : FileMeta :=
  { title := none, description := none, tags := [], sources := [], hash := none }

/-- mediavault_common::types::File. -/
structure File where
  path : String
  info : FileInfo
  meta : FileMeta
deriving DecidableEq, Repr

/-- mediavault_common::types::FileFilter. -/
inductive FileFilter where
  | Tag (t : String)
  | Kind (k : FileKind)
  | And (left right : FileFilter)
  | Or (left right : FileFilter)
deriving DecidableEq, Repr

/-- mediavault_common::types::FileSort. -/
inductive FileSort where
  | Updated
  | Created
  | Type
  | Size
  | Length
deriving DecidableEq, Repr

/-- mediavault_common::types::FileSortItem. -/
structure FileSortItem where
  sort : FileSort
  ascending : Bool
deriving DecidableEq, Repr

/-- mediavault_common::types::FileQuery; page and page_size are u32. -/
structure FileQuery where
  page : Nat
  page_size : Nat
  filter : Option FileFilter
  sort : List FileSortItem
deriving DecidableEq, Repr

/-- mediavault_common::types::FilesPage. -/
structure FilesPage where
  items : List File
  total : Nat
  page : Nat
  page_size : Nat
deriving DecidableEq, Repr

/-! ## Catalog index (src/mediavault/src/db/mod.rs)

The schema created by Db::migrate: table files(hash TEXT PRIMARY KEY,
path TEXT UNIQUE, title, description, size NOT NULL, mime, kind NOT NULL,
created_at NOT NULL, updated_at NOT NULL, width, height, length) and table
files_tags(tag NOT NULL, file_hash NOT NULL REFERENCES files(hash)
ON DELETE CASCADE, UNIQUE(tag, file_hash)).  A files row is modelled with
created_at/updated_at as plain Int because those columns are NOT NULL. -/

structure FileRow where
  hash : String
  path : String
  title : Option String
  description : Option String
  size : Int
  mime : Option String
  kind : String
  created_at : Int
  updated_at : Int
  width : Option Nat
  height : Option Nat
  length : Option Nat
deriving DecidableEq, Repr

/-- A row of the files_tags junction table. -/
structure TagRow where
  tag : String
  file_hash : String
deriving DecidableEq, Repr

/-- The state of the SQLite database: both tables in rowid order. -/
structure DbState where
  files : List FileRow
  files_tags : List TagRow
deriving DecidableEq, Repr

/-- Errors surfaced by rusqlite in the translated code paths. -/
inductive DbErr where
  /-- prepare failed because the statement names a column the table lacks. -/
  | noSuchColumn (c : String)
  /-- the number of bound parameters differs from the placeholder count. -/
  | invalidParameterCount
  /-- an explicit NULL was bound for a NOT NULL column. -/
  | notNullConstraint
  /-- the statement text does not parse (here: a string-interpolated tag
  containing a single-quote character corrupts the quoting). -/
  | sqlError
  /-- a files_tags insert references a hash absent from files. -/
  | fkViolation
  /-- Db::file: the SELECT by hash produced no row (format_err not_found). -/
  | notFound
deriving DecidableEq, Repr

/-- Db::file_filter_apply: structural recursion producing the SQL fragment and
the positional parameter list (parameters are the tag text or
FileKind::to_str of the kind). -/
def file_filter_apply : FileFilter → String × List String
  | FileFilter.Tag t => (" tag = ? ", [t])
  | FileFilter.Kind k => (" kind = ?", [k.to_str])
  | FileFilter.And l r =>
    let q1 := (file_filter_apply l).1
    let q2 := (file_filter_apply r).1
    (" (" ++ q1 ++ " AND " ++ q2 ++ ") ",
      (file_filter_apply l).2 ++ (file_filter_apply r).2)
  | FileFilter.Or l r =>
    let q1 := (file_filter_apply l).1
    let q2 := (file_filter_apply r).1
    (" (" ++ q1 ++ " OR " ++ q2 ++ ") ",
      (file_filter_apply l).2 ++ (file_filter_apply r).2)

/-- Whether the compiled WHERE fragment references the column named tag.
The files table has no such column and the generated query never joins
files_tags, so preparing a statement whose fragment mentions it fails. -/
def filterUsesTag : FileFilter → Bool
  | FileFilter.Tag _ => true
  | FileFilter.Kind _ => false
  | FileFilter.And l r => filterUsesTag l || filterUsesTag r
  | FileFilter.Or l r => filterUsesTag l || filterUsesTag r

/-- The tags stored for a given hash, in table order (the semantics of
SELECT tag FROM files_tags WHERE file_hash = ?). -/
def hashTags (rows : List TagRow) (h : String) : List String :=
  rows.filterMap (fun r => if r.file_hash == h then some r.tag else none)

/-- Db::file_tags (and the per-hash grouping performed by Db::files_tags). -/
def tagsFor (db : DbState) (h : String) : List String :=
  hashTags db.files_tags h

/-- Db::file_from_row: media is always None, sources always empty, and
meta.hash is always Some of the row hash; kind goes through
FileKind::from_str. -/
def fileFromRow (r : FileRow) (tags : List String) : File :=
  { path := r.path
    info :=
      { hash := r.hash
        size := r.size
        mime := r.mime
        kind := FileKind.from_str r.kind
        media := none
        created_at := some r.created_at
        updated_at := some r.updated_at }
    meta :=
      { title := r.title
        description := r.description
        tags := tags
        sources := []
        hash := some r.hash } }

/-- Db::file: SELECT * FROM files WHERE hash = ?, first row or not_found;
tags are always loaded (get_tags = true). -/
def Db.file (db : DbState) (h : String) : Except DbErr File :=
  match db.files.find? (fun r => r.hash == h) with
  | some r => Except.ok (fileFromRow r (tagsFor db h))
  | none => Except.error DbErr.notFound

/-- ORDER BY comparison of two rows under one sort key.  The sort fields map
exactly as in Db::files: Updated to updated_at, Created to created_at, Type
to mime, Size to size, Length to length.  SQLite sorts NULL before every
non-NULL value in ascending order, and text by byte order (which coincides
with Lean String order on UTF-8). -/
def sortKeyOrd (it : FileSortItem) (a b : FileRow) : Ordering :=
  let c : Ordering :=
    match it.sort with
    | FileSort.Updated => compare a.updated_at b.updated_at
    | FileSort.Created => compare a.created_at b.created_at
    | FileSort.Type => compare a.mime b.mime
    | FileSort.Size => compare a.size b.size
    | FileSort.Length => compare a.length b.length
  if it.ascending then c else c.swap

/-- Lexicographic combination of the sort keys in the given order (the first
key is primary). -/
def sortOrd (items : List FileSortItem) (a b : FileRow) : Ordering :=
  match items with
  | [] => Ordering.eq
  | it :: rest =>
    match sortKeyOrd it a b with
    | Ordering.eq => sortOrd rest a b
    | o => o

/-- Stable insertion of a row into a sorted list: a row goes before the first
row that must come strictly after it. -/
def sortInsert (items : List FileSortItem) (x : FileRow) : List FileRow → List FileRow
  | [] => [x]
  | y :: ys =>
    if sortOrd items x y = Ordering.lt then x :: y :: ys
    else y :: sortInsert items x ys

/-- The row order produced by the generated query: when the sort list is
empty Db::files pushes no ORDER BY clause and the scan stays in rowid
order; otherwise the rows are sorted by the keys in the given order. -/
def sortRows (items : List FileSortItem) (rows : List FileRow) : List FileRow :=
  match items with
  | [] => rows
  | _ :: _ => rows.foldr (sortInsert items) []

/-- The OFFSET value computed by Db::files:
`if query.page < 2 { 0 } else { query.page * query.page_size }`, with u32
multiplication. -/
def pageOffset (q : FileQuery) : Nat :=
  if q.page < 2 then 0 else q.page * q.page_size % 2 ^ 32

/-- Whether a row satisfies the kind predicate of a filter, the only leaf the
files table can evaluate (used by the COUNT query when no Tag leaf occurs). -/
def rowMatchesKind : FileFilter → FileRow → Bool
  | FileFilter.Tag _, _ => false
  | FileFilter.Kind k, r => r.kind == k.to_str
  | FileFilter.And l r, row => rowMatchesKind l row && rowMatchesKind r row
  | FileFilter.Or l r, row => rowMatchesKind l row || rowMatchesKind r row

/-- Db::files.  The function builds query_parts as
["SELECT * FROM files", optional "ORDER BY ...", "LIMIT ? OFFSET ?"]: the
computed where_clause is used only in the COUNT query and is never pushed
onto query_parts, while its parameters stay in the parameter vector.
Consequences, translated faithfully:
- a filter with a Tag leaf makes the COUNT statement reference the
  nonexistent column tag, so preparing it fails;
- any other filter leaves extra parameters bound to the two-placeholder
  SELECT, which fails with a parameter-count mismatch;
- with no filter, the SELECT returns every row (sorted when the sort list
  is nonempty) with LIMIT page_size OFFSET pageOffset, and tags are then
  batch-fetched and spliced per hash. -/
def Db.files (db : DbState) (q : FileQuery) : Except DbErr FilesPage :=
  match q.filter with
  | some f =>
    if filterUsesTag f then Except.error (DbErr.noSuchColumn "tag")
    else Except.error DbErr.invalidParameterCount
  | none =>
    let count := db.files.length
    let rows := ((sortRows q.sort db.files).drop (pageOffset q)).take q.page_size
    let items := rows.map (fun r => fileFromRow r (tagsFor db r.hash))
    Except.ok { items := items, total := count, page := q.page, page_size := q.page_size }

/-- A tag string survives the single-quote interpolation of
Db::file_tags_persist unchanged only when it contains no single-quote
character (char 39). -/
def tagSqlSafe (t : String) : Bool :=
  !(t.data.contains (Char.ofNat 39))

/-- The effect of one INSERT OR REPLACE INTO files_tags (file_hash, tag):
the conflicting (tag, file_hash) row, if present, is deleted and the new row
is appended. -/
def insertTag (h : String) (rows : List TagRow) (t : String) : List TagRow :=
  rows.filter (fun r => !(r.tag == t && r.file_hash == h)) ++ [⟨t, h⟩]

/-- Db::file_tags_persist.  The DELETE interpolates each tag as a
single-quoted literal into the statement text, so a tag containing a quote
character corrupts the statement and the prepare fails before anything is
deleted.  Otherwise the DELETE removes every row of the hash whose tag is
not in the new list, and each tag is then inserted with INSERT OR REPLACE
(subject to the foreign key on files.hash, enforced because the pool
customizer turns foreign_keys on). -/
def Db.file_tags_persist (db : DbState) (h : String) (tags : List String) :
    DbState × Option DbErr :=
  if !(tags.all tagSqlSafe) then (db, some DbErr.sqlError)
  else
    let afterDel :=
      db.files_tags.filter (fun r => !(r.file_hash == h && !(decide (r.tag ∈ tags))))
    if !(tags.isEmpty) && !(db.files.any (fun r => r.hash == h)) then
      ({ db with files_tags := afterDel }, some DbErr.fkViolation)
    else
      ({ db with files_tags := tags.foldl (insertTag h) afterDel }, none)

/-- The files row written by Db::file_persist (the nested
Option<Option<u32>> produced by media.as_ref().map(width etc.) binds NULL
unless both layers are Some, i.e. it flattens). -/
def rowOfFile (f : File) : FileRow :=
  { hash := f.info.hash
    path := f.path
    title := f.meta.title
    description := f.meta.description
    size := f.info.size
    mime := f.info.mime
    kind := f.info.kind.to_str
    created_at := f.info.created_at.getD 0
    updated_at := f.info.updated_at.getD 0
    width := f.info.media.bind MediaInfo.width
    height := f.info.media.bind MediaInfo.height
    length := f.info.media.bind MediaInfo.length }

/-- Db::file_persist.  The INSERT OR REPLACE binds info.created_at and
info.updated_at directly; a None value binds NULL into a NOT NULL column
and the statement fails with the state unchanged.  Otherwise every existing
row conflicting on the hash primary key or the path UNIQUE constraint is
replaced, the cascade removes the tag rows of the replaced hashes, and
Db::file_tags_persist then runs as a separate statement sequence (no
transaction). -/
def Db.file_persist (db : DbState) (f : File) : DbState × Option DbErr :=
  if f.info.created_at.isNone || f.info.updated_at.isNone then
    (db, some DbErr.notNullConstraint)
  else
    let conflict := fun (r : FileRow) => r.hash == f.info.hash || r.path == f.path
    let removed := db.files.filter conflict
    let keptFiles := db.files.filter (fun r => !(conflict r))
    let keptTags :=
      db.files_tags.filter (fun tr => !(removed.any (fun r => r.hash == tr.file_hash)))
    Db.file_tags_persist ⟨keptFiles ++ [rowOfFile f], keptTags⟩ f.info.hash f.meta.tags

/-- Db::file_delete: DELETE FROM files WHERE hash = ?; the schema cascade
removes the tag rows of that hash. -/
def Db.file_delete (db : DbState) (h : String) : DbState :=
  { files := db.files.filter (fun r => !(r.hash == h))
    files_tags := db.files_tags.filter (fun r => !(r.file_hash == h)) }

/-- db::build_pool: the connection manager is constructed with
Manager::file("db.sqlite3"); the path argument of the function is never
read.  The function is modelled by the name of the database file the pool
opens. -/
def build_pool (path : String) : String :=
  "db.sqlite3"

/-! ## Object store (src/mediavault/src/storage/mod.rs)

The filesystem under the fixed storage root is modelled as an association
list from relative path to entry payload (the root join in file_path and
meta_path is mechanical, so paths are kept relative; the tree has no
modelled directories).  Entry payloads distinguish plain file bytes from a
structured sidecar or gallery document, standing for bytes that serde_yaml
deserializes to that document. -/

/-- storage::GalleryItem (the field is named _hash in the source). -/
structure GalleryItem where
  path : String
  ghash : Option String
deriving DecidableEq, Repr

/-- storage::Gallery; the items field is a single GalleryItem, as in the
source struct. -/
structure Gallery where
  path : String
  title : String
  description : Option String
  items : GalleryItem
deriving DecidableEq, Repr

/-- storage::Importer. -/
structure Importer where
  path : String
  content : String
deriving DecidableEq, Repr

/-- storage::StorageItem. -/
inductive StorageItem where
  | File (f : File)
  | Gallery (g : Gallery)
  | Importer (i : Importer)
deriving DecidableEq, Repr

/-- The payload stored at one path of the modelled filesystem. -/
inductive EntryData where
  /-- plain file bytes. -/
  | raw (bytes : List Nat)
  /-- bytes that deserialize (serde_yaml) to a FileMeta document. -/
  | metaDoc (m : FileMeta)
  /-- bytes that deserialize (serde_yaml) to a Gallery document. -/
  | galleryDoc (g : Gallery)
deriving DecidableEq, Repr

/-- The filesystem under the storage root. -/
abbrev FsState := List (String × EntryData)

/-- fs lookup by exact path (paths are unique on a real filesystem). -/
def fsGet (fs : FsState) (p : String) : Option EntryData :=
  (fs.find? (fun e => e.1 == p)).map (fun e => e.2)

/-- fs::remove_file semantics on the model (removing a missing path is the
NotFound case, checked by the callers). -/
def fsRemove (fs : FsState) (p : String) : FsState :=
  fs.filter (fun e => !(e.1 == p))

/-- fs::File::create semantics: truncate-or-create at the path. -/
def fsPut (fs : FsState) (p : String) (d : EntryData) : FsState :=
  fsRemove fs p ++ [(p, d)]

/-- Errors surfaced by the storage layer (the source uses failure::Error;
the model keeps the distinguishable cases). -/
inductive StErr where
  | notFound
  | alreadyExists
  /-- undecodable sidecar or document (serde_yaml error). -/
  | malformed
  /-- an I/O or walk error attached to a single entry. -/
  | ioError
  /-- misclassified path (gallery/importer suffix checks). -/
  | invalidArg
deriving DecidableEq, Repr

/-- The ambient effects the store consumes: the md5 content digest of
Storage::compute_hash, the one-line (trimmed) output of the external file
--mime-type classifier per path, and the byte serialization of a structured
document (used only to give file bytes to entries holding documents). -/
structure StorageCtx where
  hashFn : List Nat → String
  mimeFn : String → String
  encodeDoc : EntryData → List Nat
  textOf : EntryData → String

/-- The raw bytes an entry presents to a plain read. -/
def entryBytes (ctx : StorageCtx) : EntryData → List Nat
  | EntryData.raw b => b
  | d => ctx.encodeDoc d

/-- Storage::meta_path: the sidecar lives at path ++ ".meta.yaml". -/
def metaPath (p : String) : String :=
  p ++ ".meta.yaml"

/-- Storage::file_meta: absence of the sidecar yields FileMeta::default, a
deserializable sidecar yields its document, and any other content is a
serde_yaml error. -/
def Storage.file_meta (fs : FsState) (p : String) : Except StErr FileMeta :=
  match fsGet fs (metaPath p) with
  | none => Except.ok FileMeta.default
  | some (EntryData.metaDoc m) => Except.ok m
  | some _ => Except.error StErr.malformed

/-- Storage::file_info: opens the file (NotFound when the path is absent),
takes the size from filesystem metadata, streams the bytes through the md5
digest, invokes the external classifier on the path and derives the kind
from the MIME string; media and the timestamps are left None (the source
has a TODO for the timestamps). -/
def Storage.file_info (ctx : StorageCtx) (fs : FsState) (p : String) :
    Except StErr FileInfo :=
  match fsGet fs p with
  | none => Except.error StErr.notFound
  | some e =>
    let b := entryBytes ctx e
    let mime := ctx.mimeFn p
    Except.ok
      { hash := ctx.hashFn b
        size := Int.ofNat b.length
        mime := some mime
        kind := FileKind.from_mime mime
        media := none
        created_at := none
        updated_at := none }

/-- Storage::file: rejects gallery- and importer-suffixed paths, then reads
info and meta. -/
def Storage.file (ctx : StorageCtx) (fs : FsState) (p : String) :
    Except StErr File :=
  if strEnds ".gallery.yaml" p then Except.error StErr.invalidArg
  else if strEnds ".importer.js" p then Except.error StErr.invalidArg
  else
    match Storage.file_info ctx fs p with
    | Except.error e => Except.error e
    | Except.ok info =>
      match Storage.file_meta fs p with
      | Except.error e => Except.error e
      | Except.ok meta => Except.ok { path := p, info := info, meta := meta }

/-- Storage::file_create: fails with path_already_exists when fs::metadata
succeeds on the target, otherwise writes the content, then the sidecar, then
re-reads the file.  The returned pair carries the filesystem after the call
(unchanged on the already-exists early return). -/
def Storage.file_create (ctx : StorageCtx) (fs : FsState) (p : String)
    (meta : FileMeta) (content : List Nat) : FsState × Except StErr File :=
  if (fsGet fs p).isSome then (fs, Except.error StErr.alreadyExists)
  else
    let fs2 := fsPut (fsPut fs p (EntryData.raw content)) (metaPath p) (EntryData.metaDoc meta)
    (fs2, Storage.file ctx fs2 p)

/-- Storage::file_meta_update: re-derives the info to require existence,
then overwrites the sidecar wholesale. -/
def Storage.file_meta_update (ctx : StorageCtx) (fs : FsState) (p : String)
    (meta : FileMeta) : FsState × Except StErr File :=
  match Storage.file_info ctx fs p with
  | Except.error e => (fs, Except.error e)
  | Except.ok info =>
    (fsPut fs (metaPath p) (EntryData.metaDoc meta),
      Except.ok { path := p, info := info, meta := meta })

/-- Storage::file_delete: removes the sidecar ignoring NotFound, then
removes the content file, for which NotFound is an error.  The returned
pair carries the filesystem after the call (the sidecar removal persists
even when the content removal fails). -/
def Storage.file_delete (fs : FsState) (p : String) :
    FsState × Except StErr Unit :=
  let fs1 := fsRemove fs (metaPath p)
  match fsGet fs1 p with
  | some _ => (fsRemove fs1 p, Except.ok ())
  | none => (fs1, Except.error StErr.notFound)

/-- Storage::gallery: requires the .gallery.yaml suffix, then opens and
deserializes the document, fixing up its path field. -/
def Storage.gallery (fs : FsState) (p : String) : Except StErr Gallery :=
  if !(strEnds ".gallery.yaml" p) then Except.error StErr.invalidArg
  else
    match fsGet fs p with
    | none => Except.error StErr.notFound
    | some (EntryData.galleryDoc g) => Except.ok { g with path := p }
    | some _ => Except.error StErr.malformed

/-- Storage::importer: requires the .importer.js suffix, then reads the
content as text. -/
def Storage.importer (ctx : StorageCtx) (fs : FsState) (p : String) :
    Except StErr Importer :=
  if !(strEnds ".importer.js" p) then Except.error StErr.invalidArg
  else
    match fsGet fs p with
    | none => Except.error StErr.notFound
    | some e => Except.ok { path := p, content := ctx.textOf e }

/-- Storage::item: suffix dispatch onto gallery, importer or file. -/
def Storage.item (ctx : StorageCtx) (fs : FsState) (p : String) :
    Except StErr StorageItem :=
  if strEnds ".gallery.yaml" p then (Storage.gallery fs p).map StorageItem.Gallery
  else if strEnds ".importer.js" p then (Storage.importer ctx fs p).map StorageItem.Importer
  else (Storage.file ctx fs p).map StorageItem.File

/-- One event of the walkdir traversal of the root: either a directory
entry whose metadata was read (relative path plus the directory flag), or a
failed entry (a walkdir error or a metadata error). -/
inductive WalkEvent where
  | entry (relPath : String) (isDir : Bool)
  | fail
deriving DecidableEq, Repr

/-- Storage::items over a walk: every failed event is wrapped as that
entry's own Err result; directories and .meta.yaml sidecars are skipped;
every other entry is classified and loaded by Storage::item, whose own
error again becomes that entry's result.  filter_map never stops the
iteration. -/
def Storage.items (ctx : StorageCtx) (fs : FsState) (walk : List WalkEvent) :
    List (Except StErr StorageItem) :=
  walk.filterMap (fun ev =>
    match ev with
    | WalkEvent.fail => some (Except.error StErr.ioError)
    | WalkEvent.entry p dir =>
      if dir || strEnds ".meta.yaml" p then none
      else some (Storage.item ctx fs p))

/-! ## Application facade (src/mediavault/src/app.rs) -/

/-- How a run of App::index ends. -/
inductive IndexOutcome where
  /-- the for_each consumed the whole sequence. -/
  | completed
  /-- an unwrap hit an Err and the process panicked. -/
  | panicked
deriving DecidableEq, Repr

/-- App::index over the result sequence produced by Storage::items: each
entry is first unwrap()ed, so the first Err aborts the whole pass by
panicking; File items are then upserted with another unwrap; non-File items
are ignored. -/
def App.index (db : DbState) : List (Except StErr StorageItem) → DbState × IndexOutcome
  | [] => (db, IndexOutcome.completed)
  | Except.error _ :: _ => (db, IndexOutcome.panicked)
  | Except.ok (StorageItem.File f) :: rest =>
    match Db.file_persist db f with
    | (db2, none) => App.index db2 rest
    | (db2, some _) => (db2, IndexOutcome.panicked)
  | Except.ok _ :: rest => App.index db rest

/-! ## Helper lemmas -/

/-- Round trip of the kind column: from_str inverts to_str. -/
theorem from_str_to_str (k : FileKind) : FileKind.from_str k.to_str = k := by
  cases k <;> rfl

theorem hashTags_cons (r : TagRow) (s : List TagRow) (h : String) :
    hashTags (r :: s) h
      = if r.file_hash == h then r.tag :: hashTags s h else hashTags s h := by
  by_cases hr : r.file_hash = h <;> simp [hashTags, List.filterMap_cons, hr]

theorem hashTags_append (a b : List TagRow) (h : String) :
    hashTags (a ++ b) h = hashTags a h ++ hashTags b h := by
  simp [hashTags, List.filterMap_append]

theorem hashTags_single (t h : String) :
    hashTags [TagRow.mk t h] h = [t] := by
  simp [hashTags]

/-- The DELETE of one (tag, hash) pair performed by INSERT OR REPLACE,
seen through the tags of that hash. -/
theorem hashTags_filterNe (s : List TagRow) (t h : String) :
    hashTags (s.filter (fun r => !(r.tag == t && r.file_hash == h))) h
      = (hashTags s h).filter (fun x => !(x == t)) := by
  induction s with
  | nil => rfl
  | cons r rs ih =>
    simp only [Bool.not_and] at ih ⊢
    by_cases h1 : r.file_hash = h
    · by_cases h2 : r.tag = t <;>
        simp [List.filter_cons, hashTags_cons, h1, h2, ih]
    · simp [List.filter_cons, hashTags_cons, h1, ih]

theorem hashTags_insertTag (s : List TagRow) (h t : String) :
    hashTags (insertTag h s t) h
      = (hashTags s h).filter (fun x => !(x == t)) ++ [t] := by
  unfold insertTag
  rw [hashTags_append, hashTags_filterNe, hashTags_single]

/-- The net effect on one hash of the INSERT OR REPLACE loop of
Db::file_tags_persist: rows of inserted tags are re-appended in insertion
order, rows of other tags survive in place. -/
theorem hashTags_foldl (h : String) :
    ∀ (T : List String) (s : List TagRow), T.Nodup →
      hashTags (T.foldl (insertTag h) s) h
        = (hashTags s h).filter (fun x => !(decide (x ∈ T))) ++ T := by
  intro T
  induction T with
  | nil => intro s _; simp
  | cons t T ih =>
    intro s hnd
    have hT : T.Nodup := (List.nodup_cons.mp hnd).2
    have ht : t ∉ T := (List.nodup_cons.mp hnd).1
    rw [List.foldl_cons, ih _ hT, hashTags_insertTag, List.filter_append,
      List.filter_filter]
    have h1 : List.filter (fun x => !(decide (x ∈ T))) [t] = [t] := by simp [ht]
    rw [h1]
    have h2 : List.filter (fun x => !(decide (x ∈ T)) && !(x == t)) (hashTags s h)
        = List.filter (fun x => !(decide (x ∈ t :: T))) (hashTags s h) := by
      apply List.filter_congr
      intro x _
      by_cases hx : x = t <;> by_cases hxT : x ∈ T <;> simp [hx, hxT]
    rw [h2, List.append_assoc, List.singleton_append]

/-- The stale-tag DELETE of Db::file_tags_persist, seen through the tags of
the targeted hash: only tags of the new list survive. -/
theorem hashTags_deleteStale (s : List TagRow) (h : String) (tags : List String) :
    hashTags (s.filter (fun r => !(r.file_hash == h && !(decide (r.tag ∈ tags))))) h
      = (hashTags s h).filter (fun x => decide (x ∈ tags)) := by
  induction s with
  | nil => rfl
  | cons r rs ih =>
    simp only [Bool.not_and, Bool.not_not] at ih ⊢
    by_cases h1 : r.file_hash = h
    · by_cases h2 : r.tag ∈ tags <;>
        simp [List.filter_cons, hashTags_cons, h1, h2, ih]
    · simp [List.filter_cons, hashTags_cons, h1, ih]

theorem filter_mem_then_not (l T : List String) :
    (l.filter (fun x => decide (x ∈ T))).filter (fun x => !(decide (x ∈ T))) = [] := by
  induction l with
  | nil => rfl
  | cons x xs ih => by_cases hx : x ∈ T <;> simp [List.filter_cons, hx, ih]

/-- A find? whose predicate contradicts the filter that produced the list
finds nothing. -/
theorem find?_filter_not {α} (l : List α) (p : α → Bool) :
    (l.filter (fun x => !(p x))).find? p = none := by
  induction l with
  | nil => rfl
  | cons x xs ih => by_cases hx : p x <;> simp [List.filter_cons, hx, ih]

/-- find? over a filtered list stays empty when it was empty on the list. -/
theorem find?_filter_none {α} (l : List α) (p q : α → Bool)
    (h : l.find? p = none) : (l.filter q).find? p = none := by
  induction l with
  | nil => rfl
  | cons x xs ih =>
    by_cases hx : p x
    · simp [List.find?_cons, hx] at h
    · rw [List.find?_cons_of_neg _ hx] at h
      by_cases hq : q x <;> simp [List.filter_cons, hx, hq, ih h]

/-- The Db::files_tags / Db::file_tags_persist core: after the stale DELETE
and the INSERT OR REPLACE loop, the junction rows of the hash are exactly
the inserted list. -/
theorem file_tags_persist_spec (db : DbState) (h : String) (T : List String)
    (hnd : T.Nodup) (hsafe : T.all tagSqlSafe = true)
    (hex : db.files.any (fun r => r.hash == h) = true) :
    (Db.file_tags_persist db h T).2 = none ∧
      (Db.file_tags_persist db h T).1.files = db.files ∧
      tagsFor (Db.file_tags_persist db h T).1 h = T := by
  unfold Db.file_tags_persist
  rw [hsafe, hex]
  simp only [Bool.not_true, Bool.false_eq_true, if_false, Bool.and_false]
  refine ⟨trivial, trivial, ?_⟩
  show hashTags
    (T.foldl (insertTag h)
      (db.files_tags.filter (fun r => !(r.file_hash == h && !(decide (r.tag ∈ T)))))) h = T
  rw [hashTags_foldl h T _ hnd, hashTags_deleteStale, filter_mem_then_not]
  rfl

/-- The combined effect of Db::file_persist for a file whose timestamps are
set (the NOT NULL columns accept the bind) and whose tags are
duplicate-free and contain no single-quote character: no statement fails,
the files table holds the new row in place of every conflicting row, and
the junction rows of the hash end up exactly the tag list of the file. -/
theorem file_persist_spec (db : DbState) (f : File)
    (hnd : f.meta.tags.Nodup) (hsafe : f.meta.tags.all tagSqlSafe = true)
    (tc tu : Int) (hc : f.info.created_at = some tc)
    (hu : f.info.updated_at = some tu) :
    (Db.file_persist db f).2 = none ∧
      (Db.file_persist db f).1.files
        = db.files.filter (fun r => !(r.hash == f.info.hash || r.path == f.path))
            ++ [rowOfFile f] ∧
      tagsFor (Db.file_persist db f).1 f.info.hash = f.meta.tags := by
  have g2 : (f.info.created_at.isNone || f.info.updated_at.isNone) = false := by
    rw [hc, hu]; rfl
  unfold Db.file_persist
  rw [g2, if_neg Bool.false_ne_true]
  exact file_tags_persist_spec _ _ _ hnd hsafe (by simp [rowOfFile])

/-- Removing a path removes it from lookup. -/
theorem fsGet_fsRemove_self (fs : FsState) (p : String) :
    fsGet (fsRemove fs p) p = none := by
  unfold fsGet fsRemove
  rw [find?_filter_not]
  rfl

/-- Removing any path never makes another lookup succeed. -/
theorem fsGet_none_fsRemove (fs : FsState) (p q : String)
    (h : fsGet fs q = none) : fsGet (fsRemove fs p) q = none := by
  have hh : fs.find? (fun e => e.1 == q) = none := by
    cases hf : fs.find? (fun e => e.1 == q) with
    | none => rfl
    | some e => unfold fsGet at h; rw [hf] at h; cases h
  unfold fsGet fsRemove
  rw [find?_filter_none _ _ _ hh]
  rfl

/-- A find? over a filtered list is empty when the filter predicate forces
the searched predicate false. -/
theorem find?_filter_disjoint {α} (l : List α) (p q : α → Bool)
    (hd : ∀ x, q x = true → p x = false) : (l.filter q).find? p = none := by
  induction l with
  | nil => rfl
  | cons x xs ih =>
    by_cases hq : q x
    · have hp := hd x hq
      simp [List.filter_cons, hq, hp, ih]
    · simp [List.filter_cons, hq, ih]

/-- Shared extraction for the listing theorems: whenever Db::files returns a
page, its items are the sorted row list with the LIMIT/OFFSET of the query
applied, each row spliced with its junction tags. -/
theorem files_ok_items (db : DbState) (q : FileQuery) (page : FilesPage)
    (h : Db.files db q = Except.ok page) :
    page.items
      = (((sortRows q.sort db.files).drop (pageOffset q)).take q.page_size).map
          (fun r => fileFromRow r (tagsFor db r.hash)) := by
  cases hf : q.filter with
  | some f =>
    simp only [Db.files, hf] at h
    split at h <;> simp at h
  | none =>
    simp only [Db.files, hf] at h
    injection h with h2
    subst h2
    rfl

/-! ## Claim theorems -/

/-! ### Fixtures used by witnesses and counterexamples -/

/-- A concrete storage context: a constant digest, a classifier that reports
video/mp4 for every path, and trivial document encodings. -/
def ctxW : StorageCtx :=
  { hashFn := fun _ => "d41d8cd9"
    mimeFn := fun _ => "video/mp4"
    encodeDoc := fun _ => []
    textOf := fun _ => "" }

/-- A minimal files row for listing fixtures. -/
def rowN (h : String) (u : Int) : FileRow :=
  { hash := h, path := h, title := none, description := none, size := 0
    mime := none, kind := "other", created_at := 0, updated_at := u
    width := none, height := none, length := none }

/-- Claim C10: the Catalog Index pool opens the fixed file db.sqlite3 for
every configured path; the db_path parameter has no effect on which backing
database is used. -/
theorem build_pool_ignores_path (p q : String) :
    build_pool p = "db.sqlite3" ∧ build_pool p = build_pool q :=
  ⟨rfl, rfl⟩

/-- Claim C8 counterexample: a MIME starting with video/ or audio/ does not
map to the video or audio kind: FileKind::from_mime sends every non-image
MIME to Other. -/
theorem from_mime_counterexample :
    FileKind.from_mime "video/mp4" = FileKind.Other ∧
    FileKind.from_mime "audio/mpeg" = FileKind.Other ∧
    FileKind.from_mime "video/mp4" ≠ FileKind.Video ∧
    FileKind.from_mime "audio/mpeg" ≠ FileKind.Audio := by
  refine ⟨by decide, by decide, by decide, by decide⟩

/-- Claim C8 (amended): readInfo derives the coarse kind from the MIME
prefix, but only the image/ prefix is mapped: a MIME starting with image/
yields image and every other MIME (video/ and audio/ included) yields
other. -/
theorem file_info_kind_from_mime (ctx : StorageCtx) (fs : FsState) (p : String)
    (b : List Nat) (h : fsGet fs p = some (EntryData.raw b)) :
    (Storage.file_info ctx fs p).map (fun i => i.kind)
      = Except.ok
          (if strStarts "image/" (ctx.mimeFn p) then FileKind.Image
            else FileKind.Other) := by
  unfold Storage.file_info
  rw [h]
  rfl

/-- C8 witness: a stored file whose classifier output is video/mp4 is
indexed with kind Other. -/
theorem file_info_kind_from_mime_witness :
    fsGet [("v.bin", EntryData.raw [0])] "v.bin" = some (EntryData.raw [0]) ∧
    (Storage.file_info ctxW [("v.bin", EntryData.raw [0])] "v.bin").map (fun i => i.kind)
      = Except.ok
          (if strStarts "image/" (ctxW.mimeFn "v.bin") then FileKind.Image
            else FileKind.Other) :=
  ⟨rfl, file_info_kind_from_mime ctxW [("v.bin", EntryData.raw [0])] "v.bin" [0] rfl⟩

/-- Claim C7: create on an already-occupied path fails with AlreadyExists
and returns with the filesystem unchanged (neither the content nor the
sidecar is touched). -/
theorem file_create_already_exists (ctx : StorageCtx) (fs : FsState)
    (p : String) (m : FileMeta) (c : List Nat)
    (h : (fsGet fs p).isSome = true) :
    Storage.file_create ctx fs p m c = (fs, Except.error StErr.alreadyExists) := by
  unfold Storage.file_create
  rw [h]
  rfl

/-- C7 witness: creating over the occupied path p fails and leaves the
one-entry filesystem intact. -/
theorem file_create_already_exists_witness :
    ((fsGet [("p", EntryData.raw [1, 2])] "p").isSome = true) ∧
    Storage.file_create ctxW [("p", EntryData.raw [1, 2])] "p" FileMeta.default [9]
      = ([("p", EntryData.raw [1, 2])], Except.error StErr.alreadyExists) :=
  ⟨rfl, file_create_already_exists ctxW [("p", EntryData.raw [1, 2])] "p"
    FileMeta.default [9] rfl⟩

/-- The filesystem fixture for the delete claim: a content file plus its
sidecar. -/
def fsDel : FsState :=
  [("p", EntryData.raw [1]),
    ("p.meta.yaml", EntryData.metaDoc
      { title := some "t", description := none, tags := [], sources := [], hash := none })]

/-- Claim C6 counterexample: after a successful delete, readMeta does not
fail with NotFound: the sidecar is gone, so Storage::file_meta returns the
zero-value Meta as a success. -/
theorem delete_then_read_meta_counterexample :
    (Storage.file_delete fsDel "p").2 = Except.ok () ∧
    Storage.file_meta (Storage.file_delete fsDel "p").1 "p" = Except.ok FileMeta.default ∧
    (Except.ok FileMeta.default : Except StErr FileMeta) ≠ Except.error StErr.notFound := by
  refine ⟨rfl, rfl, ?_⟩
  intro hcontra
  exact Except.noConfusion hcontra

/-- Claim C6 (amended): after delete(path) succeeds, readInfo fails with
NotFound, while readMeta succeeds with the zero-value Meta (the sidecar is
absent and absence is not an error). -/
theorem delete_then_read (ctx : StorageCtx) (fs : FsState) (p : String)
    (h : (Storage.file_delete fs p).2 = Except.ok ()) :
    Storage.file_info ctx (Storage.file_delete fs p).1 p = Except.error StErr.notFound ∧
    Storage.file_meta (Storage.file_delete fs p).1 p = Except.ok FileMeta.default := by
  simp only [Storage.file_delete] at h ⊢
  cases hf : fsGet (fsRemove fs (metaPath p)) p with
  | none =>
    rw [hf] at h
    exact Except.noConfusion h
  | some e =>
    dsimp only
    constructor
    · unfold Storage.file_info
      rw [fsGet_fsRemove_self]
    · unfold Storage.file_meta
      rw [fsGet_none_fsRemove _ _ _ (fsGet_fsRemove_self fs (metaPath p))]

/-- C6 witness: deleting the concrete file succeeds, after which readInfo is
NotFound and readMeta is the default Meta. -/
theorem delete_then_read_witness :
    (Storage.file_delete fsDel "p").2 = Except.ok () ∧
    (Storage.file_info ctxW (Storage.file_delete fsDel "p").1 "p"
        = Except.error StErr.notFound ∧
      Storage.file_meta (Storage.file_delete fsDel "p").1 "p"
        = Except.ok FileMeta.default) :=
  ⟨rfl, delete_then_read ctxW fsDel "p" rfl⟩

/-- The file used by the reconciliation abort counterexample. -/
def fIdx : File :=
  { path := "p"
    info := { hash := "h", size := 1, mime := none, kind := FileKind.Other
              media := none, created_at := some 0, updated_at := some 0 }
    meta := { title := none, description := none, tags := [], sources := []
              hash := none } }

/-- Claim C9 (amended): tree enumeration isolates per-entry failures (the
item sequence distributes over the walk and a failed event contributes
exactly its own Err element), but the Reconciliation pass App::index
unwraps each entry and panics on the first Err, aborting the remaining
entries. -/
theorem items_isolated_index_panics (ctx : StorageCtx) (fs : FsState)
    (w1 w2 : List WalkEvent) (db : DbState) (e : StErr)
    (rest : List (Except StErr StorageItem)) :
    Storage.items ctx fs (w1 ++ w2)
        = Storage.items ctx fs w1 ++ Storage.items ctx fs w2 ∧
    Storage.items ctx fs [WalkEvent.fail] = [Except.error StErr.ioError] ∧
    App.index db (Except.error e :: rest) = (db, IndexOutcome.panicked) := by
  refine ⟨?_, rfl, rfl⟩
  simp [Storage.items, List.filterMap_append]

/-- Claim C9 counterexample: with a failing first entry, App::index panics
and never persists the File carried by the following entry; without the
failing entry the same File is persisted. -/
theorem index_abort_counterexample :
    App.index ⟨[], []⟩ [Except.error StErr.ioError, Except.ok (StorageItem.File fIdx)]
      = (⟨[], []⟩, IndexOutcome.panicked) ∧
    App.index ⟨[], []⟩ [Except.ok (StorageItem.File fIdx)]
      = (⟨[rowOfFile fIdx], []⟩, IndexOutcome.completed) ∧
    ([rowOfFile fIdx] : List FileRow) ≠ [] := by
  refine ⟨rfl, rfl, by decide⟩

/-- The image row of the C1 dataset. -/
def rowImg : FileRow :=
  { hash := "h1", path := "a.jpg", title := none, description := none
    size := 3, mime := some "image/jpeg", kind := "image", created_at := 0
    updated_at := 0, width := none, height := none, length := none }

/-- The video row of the C1 dataset. -/
def rowVid : FileRow :=
  { hash := "h2", path := "b.mp4", title := none, description := none
    size := 4, mime := some "video/mp4", kind := "video", created_at := 0
    updated_at := 0, width := none, height := none, length := none }

/-- The C1 dataset: one image and one video, both tagged a. -/
def dbTagged : DbState :=
  ⟨[rowImg, rowVid], [⟨"a", "h1"⟩, ⟨"a", "h2"⟩]⟩

/-- The C1 query: And(Tag a, Kind image), first page. -/
def qTagged : FileQuery :=
  { page := 1, page_size := 30
    filter := some (FileFilter.And (FileFilter.Tag "a") (FileFilter.Kind FileKind.Image))
    sort := [] }

/-- Claim C1 (code bug evidence): on the dataset holding exactly one image
and one video both tagged a, listing with And(Tag a, Kind image) does not
return the image: the compiled fragment references the column tag, which
the files table lacks (the query never joins files_tags and the computed
WHERE clause is never appended to the row SELECT), so the call fails with
an SQL error instead of selecting the matching row. -/
theorem files_tag_filter_fails :
    Db.files dbTagged qTagged = Except.error (DbErr.noSuchColumn "tag") ∧
    (file_filter_apply
        (FileFilter.And (FileFilter.Tag "a") (FileFilter.Kind FileKind.Image))).1
      = " ( tag = ?  AND  kind = ?) " ∧
    (file_filter_apply
        (FileFilter.And (FileFilter.Tag "a") (FileFilter.Kind FileKind.Image))).2
      = ["a", "image"] := by
  refine ⟨rfl, rfl, rfl⟩

/-- Claim C2: whenever the list operation returns a page, its items are the
(sorted) rows after dropping an offset of 0 when page < 2 and of
page * pageSize (u32 product) otherwise, limited to pageSize rows — so page
2 skips 2 * pageSize rows. -/
theorem files_offset_formula (db : DbState) (q : FileQuery) (page : FilesPage)
    (h : Db.files db q = Except.ok page) :
    page.items
      = (((sortRows q.sort db.files).drop
            (if q.page < 2 then 0 else q.page * q.page_size % 2 ^ 32)).take
          q.page_size).map (fun r => fileFromRow r (tagsFor db r.hash)) :=
  files_ok_items db q page h

/-- The three-row dataset of the C2 witness. -/
def dbThree : DbState := ⟨[rowN "x1" 1, rowN "x2" 2, rowN "x3" 3], []⟩

/-- The C2 witness query: page 2 with page size 1. -/
def qPage2 : FileQuery := { page := 2, page_size := 1, filter := none, sort := [] }

/-- The page returned for the C2 witness query: the offset 2 * 1 skips two
of the three rows. -/
def pagePage2 : FilesPage :=
  { items := [fileFromRow (rowN "x3" 3) []], total := 3, page := 2, page_size := 1 }

/-- C2 witness: on three rows with page 2 and page size 1, two rows are
skipped (offset 2), not one. -/
theorem files_offset_formula_witness :
    Db.files dbThree qPage2 = Except.ok pagePage2 ∧
    pagePage2.items
      = (((sortRows qPage2.sort dbThree.files).drop
            (if qPage2.page < 2 then 0
              else qPage2.page * qPage2.page_size % 2 ^ 32)).take
          qPage2.page_size).map (fun r => fileFromRow r (tagsFor dbThree r.hash)) :=
  ⟨rfl, files_offset_formula dbThree qPage2 pagePage2 rfl⟩

/-- The two-row dataset of the C4 claim: insertion order disagrees with
updated-time-descending order. -/
def dbTwo : DbState := ⟨[rowN "a" 1, rowN "b" 2], []⟩

/-- The C4 query: no filter, empty sort list. -/
def qNoSort : FileQuery := { page := 1, page_size := 10, filter := none, sort := [] }

/-- Claim C4 counterexample: with an empty sort list the rows come back in
table order — the row with the older update time first — not in
updated-time-descending order, because Db::files pushes no ORDER BY clause
when the sort list is empty. -/
theorem files_empty_sort_counterexample :
    (Db.files dbTwo qNoSort).map (fun pg => pg.items.map (fun f => f.info.hash))
      = Except.ok ["a", "b"] ∧
    (["a", "b"] : List String) ≠ ["b", "a"] ∧
    (rowN "a" 1).updated_at < (rowN "b" 2).updated_at := by
  refine ⟨rfl, by decide, by decide⟩

/-- Claim C4 (amended): when the sort list is non-empty its keys are applied
in the given order with the first key primary; when the sort list is empty
no ordering is applied at all and the rows keep table order (the
updated-descending default lives in FileQuery::default, which supplies a
non-empty sort list, not in the list operation). -/
theorem files_sort_behavior (db : DbState) (q : FileQuery) (page : FilesPage)
    (h : Db.files db q = Except.ok page) :
    page.items
      = (((sortRows q.sort db.files).drop (pageOffset q)).take q.page_size).map
          (fun r => fileFromRow r (tagsFor db r.hash)) ∧
    (q.sort = [] → sortRows q.sort db.files = db.files) := by
  refine ⟨files_ok_items db q page h, ?_⟩
  intro hs
  rw [hs]
  rfl

/-- The page returned for the C4 witness query. -/
def pageNoSort : FilesPage :=
  { items := [fileFromRow (rowN "a" 1) [], fileFromRow (rowN "b" 2) []]
    total := 2, page := 1, page_size := 10 }

/-- C4 witness: the no-sort query returns the table-order page and the
empty sort list leaves the rows unsorted. -/
theorem files_sort_behavior_witness :
    Db.files dbTwo qNoSort = Except.ok pageNoSort ∧
    (pageNoSort.items
        = (((sortRows qNoSort.sort dbTwo.files).drop (pageOffset qNoSort)).take
            qNoSort.page_size).map (fun r => fileFromRow r (tagsFor dbTwo r.hash)) ∧
      (qNoSort.sort = [] → sortRows qNoSort.sort dbTwo.files = dbTwo.files)) :=
  ⟨rfl, files_sort_behavior dbTwo qNoSort pageNoSort rfl⟩

/-- The single-quote character as a string (written via its code point). -/
def sqStr : String := String.singleton (Char.ofNat 39)

/-- A tag containing a single quote: interpolated into the DELETE statement
it corrupts the quoting. -/
def badTag : String := "it" ++ sqStr ++ "s"

/-- The first-upsert file of the tag-replacement claims: hash h, tag x. -/
def fT1 : File :=
  { path := "p"
    info := { hash := "h", size := 1, mime := none, kind := FileKind.Other
              media := none, created_at := some 0, updated_at := some 0 }
    meta := { title := none, description := none, tags := ["x"], sources := []
              hash := none } }

/-- The second-upsert file carrying the quoted tag. -/
def fT2 : File :=
  { fT1 with meta := { fT1.meta with tags := [badTag] } }

/-- The second-upsert file carrying the clean tag set b, c. -/
def fT2b : File :=
  { fT1 with meta := { fT1.meta with tags := ["b", "c"] } }

/-- Claim C5 counterexample: upserting tags [x] and then tags [it: a tag
with a single quote] for the same hash does not leave the second set in the
junction table: the interpolated DELETE statement fails, after the row
REPLACE has already cascade-deleted the old tag rows, so the junction ends
up empty — holding neither the first nor the second set. -/
theorem upsert_tags_quote_counterexample :
    (Db.file_persist (Db.file_persist ⟨[], []⟩ fT1).1 fT2).2 = some DbErr.sqlError ∧
    tagsFor (Db.file_persist (Db.file_persist ⟨[], []⟩ fT1).1 fT2).1 "h" = [] ∧
    ([] : List String) ≠ [badTag] ∧ ([] : List String) ≠ ["x"] := by
  refine ⟨rfl, rfl, by decide, by decide⟩

/-- Claim C5 (amended): for upserts of the same hash whose second tag set is
duplicate-free, contains no single-quote character, and whose file carries
timestamps, the second upsert succeeds and leaves the junction table
holding exactly the second tag set for that hash. -/
theorem upsert_twice_tags_exact (db : DbState) (f1 f2 : File)
    (hh : f1.info.hash = f2.info.hash)
    (hnd : f2.meta.tags.Nodup) (hsafe : f2.meta.tags.all tagSqlSafe = true)
    (tc tu : Int) (hc : f2.info.created_at = some tc)
    (hu : f2.info.updated_at = some tu) :
    (Db.file_persist (Db.file_persist db f1).1 f2).2 = none ∧
    tagsFor (Db.file_persist (Db.file_persist db f1).1 f2).1 f2.info.hash
      = f2.meta.tags := by
  obtain ⟨e_none, _, tags_eq⟩ :=
    file_persist_spec (Db.file_persist db f1).1 f2 hnd hsafe tc tu hc hu
  exact ⟨e_none, tags_eq⟩

/-- C5 witness: upserting tags [x] and then [b, c] for hash h leaves
exactly [b, c]. -/
theorem upsert_twice_tags_exact_witness :
    fT1.info.hash = fT2b.info.hash ∧
    fT2b.meta.tags.Nodup ∧
    fT2b.meta.tags.all tagSqlSafe = true ∧
    fT2b.info.created_at = some 0 ∧
    fT2b.info.updated_at = some 0 ∧
    ((Db.file_persist (Db.file_persist ⟨[], []⟩ fT1).1 fT2b).2 = none ∧
      tagsFor (Db.file_persist (Db.file_persist ⟨[], []⟩ fT1).1 fT2b).1
          fT2b.info.hash
        = fT2b.meta.tags) :=
  ⟨rfl, by decide, by decide, rfl, rfl,
    upsert_twice_tags_exact ⟨[], []⟩ fT1 fT2b rfl (by decide) (by decide) 0 0 rfl rfl⟩

/-- The file of the C3 counterexample: it carries a provenance source and
image dimensions. -/
def fSrc : File :=
  { path := "p"
    info := { hash := "h", size := 1, mime := none, kind := FileKind.Other
              media := some (MediaInfo.Image 4 3), created_at := some 0
              updated_at := some 0 }
    meta := { title := none, description := none, tags := []
              sources := [{ url := "u", page_url := none, title := none
                            description := none, tags := [], uploader := none
                            created_at := none, extra := none }]
              hash := some "h" } }

/-- Claim C3 counterexample: upsert of a file carrying a source record and
image dimensions succeeds, but get returns the file with sources read back
as the empty list and media read back as None — not the File that was
upserted (Db::file_from_row never reconstructs them). -/
theorem upsert_get_counterexample :
    (Db.file_persist ⟨[], []⟩ fSrc).2 = none ∧
    (Db.file (Db.file_persist ⟨[], []⟩ fSrc).1 "h").map (fun g => g.meta.sources)
      = Except.ok [] ∧
    (Db.file (Db.file_persist ⟨[], []⟩ fSrc).1 "h").map (fun g => g.info.media)
      = Except.ok none ∧
    fSrc.meta.sources ≠ [] ∧ fSrc.info.media ≠ none := by
  refine ⟨rfl, rfl, rfl, by decide, by decide⟩

/-- Claim C3 (amended): upsert followed by get on the file hash returns the
same File — path, Info fields, title, description, full tag set — for every
file whose media is None, whose sources are empty, whose meta hash equals
its info hash, whose timestamps are set, and whose tags are duplicate-free
without single quotes; media and sources are not mirrored by the index and
come back as None and empty for every other file. -/
theorem upsert_get_roundtrip (db : DbState) (f : File)
    (hnd : f.meta.tags.Nodup) (hsafe : f.meta.tags.all tagSqlSafe = true)
    (tc tu : Int) (hc : f.info.created_at = some tc)
    (hu : f.info.updated_at = some tu)
    (hm : f.info.media = none) (hs : f.meta.sources = [])
    (hh : f.meta.hash = some f.info.hash) :
    Db.file (Db.file_persist db f).1 f.info.hash = Except.ok f := by
  obtain ⟨e_none, files_eq, tags_eq⟩ := file_persist_spec db f hnd hsafe tc tu hc hu
  unfold Db.file
  rw [files_eq]
  have h1 : (db.files.filter
      (fun r => !(r.hash == f.info.hash || r.path == f.path))).find?
        (fun r => r.hash == f.info.hash) = none := by
    apply find?_filter_disjoint
    intro x hx
    simp only [Bool.not_or, Bool.and_eq_true, Bool.not_eq_true'] at hx
    exact hx.1
  have h2 : ((db.files.filter
      (fun r => !(r.hash == f.info.hash || r.path == f.path)))
        ++ [rowOfFile f]).find? (fun r => r.hash == f.info.hash)
      = some (rowOfFile f) := by
    rw [List.find?_append, h1]
    simp [rowOfFile]
  rw [h2, tags_eq]
  obtain ⟨fp, ⟨ih, isz, imime, ikind, imedia, ica, iua⟩, ⟨mt, md, mtags, msrc, mh⟩⟩ := f
  dsimp only at hm hs hh hc hu tags_eq ⊢
  subst hm hs hh hc hu
  simp [fileFromRow, rowOfFile, from_str_to_str]

/-- The file of the C3 witness: no media, no sources, set timestamps. -/
def fRound : File :=
  { path := "q"
    info := { hash := "hw", size := 2, mime := some "image/png"
              kind := FileKind.Image, media := none, created_at := some 5
              updated_at := some 6 }
    meta := { title := some "t", description := none, tags := ["x", "y"]
              sources := [], hash := some "hw" } }

/-- C3 witness: the concrete file round-trips exactly through upsert and
get on the empty index. -/
theorem upsert_get_roundtrip_witness :
    fRound.meta.tags.Nodup ∧
    fRound.meta.tags.all tagSqlSafe = true ∧
    fRound.info.created_at = some 5 ∧
    fRound.info.updated_at = some 6 ∧
    fRound.info.media = none ∧
    fRound.meta.sources = [] ∧
    fRound.meta.hash = some fRound.info.hash ∧
    Db.file (Db.file_persist ⟨[], []⟩ fRound).1 fRound.info.hash = Except.ok fRound :=
  ⟨by decide, by decide, rfl, rfl, rfl, rfl, rfl,
    upsert_get_roundtrip ⟨[], []⟩ fRound (by decide) (by decide) 5 6 rfl rfl rfl rfl rfl⟩
